import Mathlib

/-!
Verification of the personal-finance-tracker repository.

This file shallowly embeds the data model and the operations of the
repository (the Google Sheets access layer in src/lib/google-sheets.ts,
the validation helpers in src/utils/data-validation.ts, the credentials
authorization in src/lib/auth.ts, the dashboard aggregation of the
finance store, and the smart-recommendations heuristics) and proves the
testable properties stated in the specification.

Modelling conventions:
  * JavaScript numbers are modelled by exact rationals.  All the
    arithmetic appearing in the claims stays exact in double precision,
    so the rational model agrees with the running code on those inputs.
  * A JavaScript value that may be `undefined` is modelled by `Option`.
  * `parseFloat`/`parseInt` results are carried on each spreadsheet cell
    (`none` models `NaN`); the `x || d` idiom is modelled explicitly.
  * Asynchronous methods are modelled as pure functions of the fetched
    data: the outcome of the underlying network call is an explicit
    argument (`FetchResult`, `WriteOutcome`).
-/

namespace FinanceTracker

/-! ## Data model (src/types, as used by the code under verification) -/

structure MonthlyIncome where
  id : String
  source : String
  amount : ℚ
  month : Int
  year : Int
  account : String
deriving DecidableEq, Repr

inductive BudgetType where
  | needs
  | wants
  | savings
deriving DecidableEq, Repr

structure BudgetCategory where
  id : String
  name : String
  btype : BudgetType
  color : String
  allocation : ℚ
  spent : ℚ
  month : Int
  year : Int
  account : String
deriving DecidableEq, Repr

structure Expense where
  id : String
  date : String
  description : String
  amount : ℚ
  category : String
  account : String
  month : Int
  year : Int
deriving DecidableEq, Repr

/-! ## JavaScript-style helpers -/

/-- A raw spreadsheet cell as the row-mapping code observes it: its string
content together with the results of `parseFloat` and `parseInt` on it
(`none` models `NaN`). -/
structure Cell where
  text : String
  floatVal : Option ℚ
  intVal : Option Int
deriving DecidableEq, Repr

abbrev Row := List Cell

/-- `row[n] || ''` : missing cells and empty cells give the empty string. -/
def jsStrAt (row : Row) (n : Nat) : String :=
  ((row.get? n).map (·.text)).getD ""

/-- `parseFloat(row[n]) || 0` : a missing or unparsable cell gives `0`. -/
def jsFloatAt (row : Row) (n : Nat) : ℚ :=
  ((row.get? n).bind (·.floatVal)).getD 0

/-- `parseInt(row[n]) || d` : a missing or unparsable cell, and also a cell
parsing to `0` (which is falsy), give the default `d`. -/
def jsIntAt (row : Row) (n : Nat) (d : Int) : Int :=
  match (row.get? n).bind (·.intVal) with
  | none => d
  | some v => if v = 0 then d else v

/-- Whether `p` is a prefix of `s`, on character lists. -/
def prefixOf : List Char → List Char → Bool
  | [], _ => true
  | _ :: _, [] => false
  | p :: ps, c :: cs => p == c && prefixOf ps cs

/-- Whether `pat` occurs as a contiguous substring of `s`. -/
def occursIn (pat : List Char) : List Char → Bool
  | [] => pat.isEmpty
  | c :: cs => prefixOf pat (c :: cs) || occursIn pat cs

/-- Substring test, modelling JavaScript `String.prototype.includes`. -/
def includesSub (s pat : String) : Bool :=
  occursIn pat.data s.data

/-- Model of `String.prototype.toLowerCase`. -/
def jsToLower (s : String) : String :=
  ⟨s.data.map Char.toLower⟩

/-- Model of `String.prototype.trim`: strip whitespace from both ends. -/
def jsTrim (s : String) : String :=
  ⟨((s.data.dropWhile Char.isWhitespace).reverse.dropWhile Char.isWhitespace).reverse⟩

/-- `n.toString().padStart(2, '0')`. -/
def pad2 (n : Int) : String :=
  let s := toString n
  if s.length < 2 then "0" ++ s else s

/-! ## Spreadsheet access layer (src/lib/google-sheets.ts) -/

/-- The part of the service state the read/write paths branch on. -/
structure ServiceState where
  isConfigured : Bool
deriving DecidableEq, Repr

/-- Outcome of the underlying `spreadsheets.values.get` call:
`ok values` is a normal response whose `data.values` field may be absent,
`err` is any thrown error (network, auth, malformed range). -/
inductive FetchResult where
  | ok (values : Option (List Row))
  | err
deriving DecidableEq, Repr

/-- `getRange`: returns the fetched rows, or `[]` when the service is not
configured, the response carries no values, or the call throws. -/
def getRange (st : ServiceState) (fetch : FetchResult) : List Row :=
  if !st.isConfigured then
    []
  else
    match fetch with
    | .ok values => values.getD []
    | .err => []

/-- Outcome of the underlying write call. -/
inductive WriteOutcome where
  | ok
  | err
deriving DecidableEq, Repr

/-- Result of a write operation: the value returned to the caller (an
`Except`, so that a propagated failure would be visible as `.error`),
whether the write actually reached the sheet, and the console log. -/
structure WriteResult where
  result : Except String Unit
  persisted : Bool
  log : List String
deriving Repr

/-- `updateRange`: skips silently when unconfigured, catches and logs any
error from the API call, and always returns normally. -/
def updateRange (st : ServiceState) (w : WriteOutcome) : WriteResult :=
  if !st.isConfigured then
    { result := .ok (), persisted := false,
      log := ["Google Sheets not configured. Update operation skipped."] }
  else
    match w with
    | .ok => { result := .ok (), persisted := true, log := [] }
    | .err => { result := .ok (), persisted := false,
                log := ["Error updating range:"] }

/-- `appendData`: same shape as `updateRange`. -/
def appendData (st : ServiceState) (w : WriteOutcome) : WriteResult :=
  if !st.isConfigured then
    { result := .ok (), persisted := false,
      log := ["Google Sheets not configured. Append operation skipped."] }
  else
    match w with
    | .ok => { result := .ok (), persisted := true, log := [] }
    | .err => { result := .ok (), persisted := false,
                log := ["Error appending data:"] }

/-- The wall-clock date the demo fallbacks compare against
(`new Date()`, `getMonth() + 1`, `getFullYear()`). -/
structure CalDate where
  month : Int
  year : Int
deriving DecidableEq, Repr

/-- The demo income array returned by `getMonthlyIncome` on an empty row
set for the current calendar month. -/
def demoIncome (month year : Int) : List MonthlyIncome :=
  [ { id := "income-1", source := "Salary", amount := 25000000,
      month := month, year := year, account := "BCA Checking" },
    { id := "income-2", source := "Freelance Work", amount := 5000000,
      month := month, year := year, account := "BCA Checking" },
    { id := "income-3", source := "Investment Returns", amount := 2500000,
      month := month, year := year, account := "Investasi Saham" } ]

/-- `getMonthlyIncome(month, year)` as a function of the rows returned by
`getRange` and of the current date. -/
def getMonthlyIncome (st : ServiceState) (fetch : FetchResult)
    (now : CalDate) (month year : Int) : List MonthlyIncome :=
  let data := getRange st fetch
  if data.isEmpty then
    if month ≠ now.month ∨ year ≠ now.year then []
    else demoIncome month year
  else
    (((data.drop 1).enum).map (fun p =>
      { id := "income-" ++ toString p.1,
        source := jsStrAt p.2 0,
        amount := jsFloatAt p.2 1,
        month := jsIntAt p.2 2 month,
        year := jsIntAt p.2 3 year,
        account := jsStrAt p.2 4 : MonthlyIncome })).filter
      (fun item => item.month == month && item.year == year)

/-- The demo budget array returned by `getBudgetCategories` on an empty
row set (note: for every requested month and year). -/
def demoBudget (month year : Int) : List BudgetCategory :=
  [ { id := "budget-1", name := "Food & Groceries", btype := .needs, color := "#10B981",
      allocation := 4000000, spent := 3200000, month := month, year := year, account := "BCA Checking" },
    { id := "budget-2", name := "Transportation", btype := .needs, color := "#3B82F6",
      allocation := 2000000, spent := 1800000, month := month, year := year, account := "BCA Checking" },
    { id := "budget-3", name := "Utilities", btype := .needs, color := "#F59E0B",
      allocation := 1500000, spent := 1200000, month := month, year := year, account := "BCA Checking" },
    { id := "budget-4", name := "Entertainment", btype := .wants, color := "#EF4444",
      allocation := 2500000, spent := 3100000, month := month, year := year, account := "BCA Checking" },
    { id := "budget-5", name := "Shopping", btype := .wants, color := "#8B5CF6",
      allocation := 2000000, spent := 1500000, month := month, year := year, account := "BCA Checking" },
    { id := "budget-6", name := "Emergency Fund", btype := .savings, color := "#059669",
      allocation := 5000000, spent := 5000000, month := month, year := year, account := "Mandiri Savings" },
    { id := "budget-7", name := "Investments", btype := .savings, color := "#7C3AED",
      allocation := 3000000, spent := 3000000, month := month, year := year, account := "Investasi Saham" } ]

/-- The sheet-type to budget-type classification inside
`getBudgetCategories`. -/
def classifyBudgetType (sheetType : String) : BudgetType :=
  if includesSub sheetType "variable" || includesSub sheetType "entertainment"
      || includesSub sheetType "travel" then
    .wants
  else if includesSub sheetType "savings" || includesSub sheetType "investment" then
    .savings
  else
    .needs

/-- `getBudgetCategories(month, year)`.  Unlike the income and expense
readers, the empty-row fallback has no current-month guard. -/
def getBudgetCategories (st : ServiceState) (fetch : FetchResult)
    (_now : CalDate) (month year : Int) : List BudgetCategory :=
  let data := getRange st fetch
  if data.isEmpty then
    demoBudget month year
  else
    (((data.drop 1).enum).map (fun p =>
      { id := "budget-" ++ toString p.1,
        name := jsStrAt p.2 0,
        btype := classifyBudgetType (jsToLower (jsStrAt p.2 1)),
        color := if jsStrAt p.2 2 = "" then "#3B82F6" else jsStrAt p.2 2,
        allocation := jsFloatAt p.2 3,
        spent := jsFloatAt p.2 4,
        month := jsIntAt p.2 5 month,
        year := jsIntAt p.2 6 year,
        account := jsStrAt p.2 7 : BudgetCategory })).filter
      (fun item => item.month == month && item.year == year)

/-- Date string of a demo expense row. -/
def demoDate (year month : Int) (day : String) : String :=
  toString year ++ "-" ++ pad2 month ++ "-" ++ day

/-- The demo expense array returned by `getExpenses` on an empty row set
for the current calendar month. -/
def demoExpenses (month year : Int) : List Expense :=
  [ { id := "expense-1", date := demoDate year month "05", description := "Supermarket Shopping",
      amount := 750000, category := "Food & Groceries", account := "BCA Checking", month := month, year := year },
    { id := "expense-2", date := demoDate year month "08", description := "Grab Transport",
      amount := 85000, category := "Transportation", account := "BCA Checking", month := month, year := year },
    { id := "expense-3", date := demoDate year month "10", description := "Electricity Bill",
      amount := 450000, category := "Utilities", account := "BCA Checking", month := month, year := year },
    { id := "expense-4", date := demoDate year month "12", description := "Netflix Subscription",
      amount := 186000, category := "Entertainment", account := "BCA Checking", month := month, year := year },
    { id := "expense-5", date := demoDate year month "15", description := "Restaurant Dinner",
      amount := 420000, category := "Entertainment", account := "BCA Checking", month := month, year := year },
    { id := "expense-6", date := demoDate year month "18", description := "Clothing Shopping",
      amount := 650000, category := "Shopping", account := "BCA Checking", month := month, year := year },
    { id := "expense-7", date := demoDate year month "20", description := "Grocery Store",
      amount := 320000, category := "Food & Groceries", account := "BCA Checking", month := month, year := year },
    { id := "expense-8", date := demoDate year month "22", description := "Gas Station",
      amount := 200000, category := "Transportation", account := "BCA Checking", month := month, year := year },
    { id := "expense-9", date := demoDate year month "25", description := "Coffee Shop",
      amount := 85000, category := "Entertainment", account := "BCA Checking", month := month, year := year },
    { id := "expense-10", date := demoDate year month "28", description := "Internet Bill",
      amount := 350000, category := "Utilities", account := "BCA Checking", month := month, year := year } ]

/-- `getExpenses(month, year)`. -/
def getExpenses (st : ServiceState) (fetch : FetchResult)
    (now : CalDate) (month year : Int) : List Expense :=
  let data := getRange st fetch
  if data.isEmpty then
    if month ≠ now.month ∨ year ≠ now.year then []
    else demoExpenses month year
  else
    (((data.drop 1).enum).map (fun p =>
      { id := "expense-" ++ toString p.1,
        date := jsStrAt p.2 0,
        description := jsStrAt p.2 1,
        amount := jsFloatAt p.2 2,
        category := jsStrAt p.2 3,
        account := jsStrAt p.2 4,
        month := jsIntAt p.2 5 month,
        year := jsIntAt p.2 6 year : Expense })).filter
      (fun item => item.month == month && item.year == year)

/-! ## Data validation (src/utils/data-validation.ts) -/

/-- Truthiness of a possibly-undefined string: `undefined` and `""` are
falsy. -/
def truthyStr (o : Option String) : Bool :=
  match o with
  | some s => s != ""
  | none => false

/-- Truthiness of a possibly-undefined number: `undefined` and `0` are
falsy. -/
def truthyQ (o : Option ℚ) : Bool :=
  match o with
  | some v => v != 0
  | none => false

/-- Truthiness of a possibly-undefined integer. -/
def truthyInt (o : Option Int) : Bool :=
  match o with
  | some v => v != 0
  | none => false

/-- `Partial<Expense>`: every field may be absent. -/
structure PartialExpense where
  id : Option String
  date : Option String
  description : Option String
  amount : Option ℚ
  category : Option String
  account : Option String
  month : Option Int
  year : Option Int
deriving DecidableEq, Repr

/-- The object spread `{ ...expense, description: trim, amount: abs,
category: trim, account: trim }` built by `validateExpense`. -/
structure SanitizedExpense where
  id : Option String
  date : Option String
  description : Option String
  amount : ℚ
  category : Option String
  account : Option String
  month : Option Int
  year : Option Int
deriving DecidableEq, Repr

structure DataValidationResult where
  isValid : Bool
  errors : List String
  sanitizedData : Option SanitizedExpense
deriving DecidableEq, Repr

/-- The error list accumulated by `validateExpense`, one message per
failed check, in source order. -/
def expenseErrors (e : PartialExpense) : List String :=
  (if truthyStr e.id then [] else ["Expense ID is required"])
  ++ (if !truthyStr e.description || (jsTrim (e.description.getD "")).length == 0 then
        ["Expense description is required"] else [])
  ++ (if !truthyQ e.amount || decide (e.amount.getD 0 ≤ 0) then
        ["Expense amount must be greater than 0"] else [])
  ++ (if truthyStr e.category then [] else ["Expense category is required"])
  ++ (if truthyStr e.account then [] else ["Expense account is required"])
  ++ (if truthyStr e.date then [] else ["Expense date is required"])
  ++ (if !truthyInt e.month || decide (e.month.getD 0 < 1) || decide (12 < e.month.getD 0) then
        ["Expense month must be between 1 and 12"] else [])
  ++ (if !truthyInt e.year || decide (e.year.getD 0 < 2000) || decide (2100 < e.year.getD 0) then
        ["Expense year must be a valid year"] else [])

/-- The sanitized object spread built by `validateExpense`. -/
def sanitizeExpense (e : PartialExpense) : SanitizedExpense :=
  { id := e.id, date := e.date,
    description := e.description.map jsTrim,
    amount := |e.amount.getD 0|,
    category := e.category.map jsTrim,
    account := e.account.map jsTrim,
    month := e.month, year := e.year }

/-- `validateExpense` from src/utils/data-validation.ts: `sanitizedData`
is built exactly when no error was pushed. -/
def validateExpense (e : PartialExpense) : DataValidationResult :=
  let errors := expenseErrors e
  let sanitizedData : Option SanitizedExpense :=
    if errors.length = 0 then some (sanitizeExpense e) else none
  { isValid := errors.length == 0, errors := errors, sanitizedData := sanitizedData }

/-! ## Credentials authorization (src/lib/auth.ts) -/

/-- The credentials object handed to `authorize`; either field may be
absent. -/
structure Credentials where
  email : Option String
  password : Option String
deriving DecidableEq, Repr

/-- The user record `authorize` resolves with. -/
structure AuthUser where
  id : String
  email : String
  name : String
  image : Option String
deriving DecidableEq, Repr

/-- `authorize(credentials)` of the credentials provider: accepts any
truthy email/password pair, returning the demo user; rejects otherwise. -/
def authorize (credentials : Option Credentials) : Option AuthUser :=
  match credentials with
  | some c =>
      if truthyStr c.email && truthyStr c.password then
        some { id := "demo-user", email := c.email.getD "",
               name := "Demo User", image := none }
      else
        none
  | none => none

/-! ## Store dashboard aggregation (finance store, refreshDashboard) -/

/-- `expenses.reduce((sum, expense) => sum + expense.amount, 0)`. -/
def totalSpending (expenses : List Expense) : ℚ :=
  expenses.foldl (fun sum e => sum + e.amount) 0

/-- `monthlyIncome.reduce((sum, income) => sum + income.amount, 0)`. -/
def totalIncomeOf (monthlyIncome : List MonthlyIncome) : ℚ :=
  monthlyIncome.foldl (fun sum i => sum + i.amount) 0

/-- One entry of the `expensesByCategory` chart data. -/
structure CategoryChartItem where
  name : String
  value : ℚ
  color : String
  percentage : ℚ
deriving DecidableEq, Repr

/-- `expensesByCategory` from `refreshDashboard`: one chart item per
budget category, whose value is the sum of the expenses with exactly that
category name; zero-valued items are dropped at the end. -/
def expensesByCategory (budgetCategories : List BudgetCategory)
    (expenses : List Expense) : List CategoryChartItem :=
  (budgetCategories.map (fun category =>
    let categoryExpenses :=
      (expenses.filter (fun expense => expense.category == category.name)).foldl
        (fun sum expense => sum + expense.amount) 0
    { name := category.name,
      value := categoryExpenses,
      color := category.color,
      percentage :=
        if totalSpending expenses > 0 then
          categoryExpenses / totalSpending expenses * 100
        else 0 : CategoryChartItem })).filter
    (fun item => decide (item.value > 0))

/-- The grand total of the per-category chart values (the aggregate the
specification compares with the arithmetic sum of the expenses). -/
def grandTotal (items : List CategoryChartItem) : ℚ :=
  (items.map (·.value)).sum

/-! ## Savings rate (SmartRecommendations, financial-trends) -/

/-- `totalIncome > 0 ? ((totalIncome - totalExpenses) / totalIncome) * 100 : 0`. -/
def savingsRate (totalIncome totalExpenses : ℚ) : ℚ :=
  if totalIncome > 0 then (totalIncome - totalExpenses) / totalIncome * 100 else 0

/-! ## Smart recommendations (SmartRecommendations component)

The heuristics build a list of recommendation records and sort it by
impact.  Display strings (title, message, action labels) are elided; the
string ids of the source (`overspent-7`, `low-savings-rate`, ...) are
modelled by a tagged type so that distinctness of ids is structural.  The
JavaScript `Date` library is an explicit parameter `DateLib`. -/

inductive RecType where
  | warning
  | success
  | info
  | danger
deriving DecidableEq, Repr

inductive Impact where
  | high
  | medium
  | low
deriving DecidableEq, Repr

inductive RecId where
  | spendingSpikes
  | weekendSpending
  | budgetReallocation
  | overspent (catId : String)
  | foodIncrease (catId : String)
  | entertainmentHigh (catId : String)
  | lowSavingsRate
  | goodSavingsRate
  | moderateSavingsRate
  | emergencyFundLow
  | emergencyFundExcellent
  | highDebt
  | investmentOpportunity
  | incomeGrowth
  | retirementPlanning
  | subscriptionAudit
deriving DecidableEq, Repr

structure Recommendation where
  id : RecId
  rtype : RecType
  category : String
  impact : Impact
  value : Option ℚ
deriving DecidableEq, Repr

/-- `impactOrder = { high: 3, medium: 2, low: 1 }`. -/
def impactOrder : Impact → ℚ
  | .high => 3
  | .medium => 2
  | .low => 1

/-- The JavaScript `Date` functions the component applies to the date
strings of expenses. -/
structure DateLib where
  toDateStr : String → String
  getDay : String → Int

/-- `expenses.reduce((acc, expense) => { acc[expense.category] =
(acc[expense.category] || 0) + expense.amount; return acc }, {})` as a
total function from category name to accumulated amount. -/
def categorySpendingMap (expenses : List Expense) : String → ℚ :=
  expenses.foldl
    (fun acc expense k =>
      if k = expense.category then acc k + expense.amount else acc k)
    (fun _ => 0)

/-- The per-category heuristics of the `budgetCategories.forEach` block:
overspending warning, food-increase check and entertainment check.  In
the source `lastMonthSpent` aliases `spent`, so the food increase is `0`
(or `NaN` when `spent = 0`) and its `> 15` test is false either way; the
`NaN` case is the `spent = 0` guard below. -/
def categoryRecs (totalIncome : ℚ) (categorySpending : String → ℚ)
    (category : BudgetCategory) : List Recommendation :=
  let spent := categorySpending category.name
  let budgeted := category.allocation
  let variance := spent - budgeted
  (if variance > budgeted * (15 / 100) then
     [{ id := .overspent category.id, rtype := .warning, category := category.name,
        impact := .high, value := some variance }]
   else [])
  ++ (if includesSub (jsToLower category.name) "makan"
        || includesSub (jsToLower category.name) "food" then
        if spent = 0 then []
        else if (spent - spent) / spent * 100 > 15 then
          [{ id := .foodIncrease category.id, rtype := .warning, category := "Food",
             impact := .medium, value := some ((spent - spent) / spent * 100) }]
        else []
      else [])
  ++ (if includesSub (jsToLower category.name) "hiburan"
        || includesSub (jsToLower category.name) "entertainment" then
        let entertainmentPercentage :=
          if totalIncome > 0 then spent / totalIncome * 100 else 0
        if entertainmentPercentage > 15 then
          [{ id := .entertainmentHigh category.id, rtype := .danger,
             category := "Entertainment", impact := .high,
             value := some entertainmentPercentage }]
        else []
      else [])

/-- Total amount of the expenses dated on a Saturday or a Sunday. -/
def weekendSpendingTotal (dl : DateLib) (expenses : List Expense) : ℚ :=
  (expenses.filter (fun expense =>
    dl.getDay expense.date == 0 || dl.getDay expense.date == 6)).foldl
    (fun sum expense => sum + expense.amount) 0

/-- `weekendRatio`: weekend spending as a percentage of total spending,
with the zero guard of the source. -/
def weekendSpendPct (dl : DateLib) (expenses : List Expense) : ℚ :=
  if totalSpending expenses > 0 then
    weekendSpendingTotal dl expenses / totalSpending expenses * 100
  else 0

/-- The full recommendation pipeline of `SmartRecommendations`, in source
order, followed by the stable sort on impact. -/
def recommendations (dl : DateLib) (expenses : List Expense)
    (monthlyIncome : List MonthlyIncome)
    (budgetCategories : List BudgetCategory) : List Recommendation :=
  let totalIncome := totalIncomeOf monthlyIncome
  let totalExpenses := totalSpending expenses
  let sRate := savingsRate totalIncome totalExpenses
  -- spending spikes over the last 30 transactions, grouped by day
  let recentExpenses := expenses.drop (expenses.length - 30)
  let dayKeys := recentExpenses.foldl
    (fun ks expense =>
      if ks.contains (dl.toDateStr expense.date) then ks
      else ks ++ [dl.toDateStr expense.date]) []
  let dailySpending := dayKeys.map (fun d =>
    ((recentExpenses.filter (fun expense => dl.toDateStr expense.date == d)).map
      (·.amount)).sum)
  let spikeRecs : List Recommendation :=
    -- with no transactions the average is NaN and both comparisons are false
    if dailySpending.isEmpty then []
    else
      let avgDailySpending := dailySpending.sum / (dailySpending.length : ℚ)
      let recentHighSpending :=
        (dailySpending.filter (fun amount => decide (amount > avgDailySpending * 2))).length
      if recentHighSpending > 2 then
        [{ id := .spendingSpikes, rtype := .warning, category := "Spending Patterns",
           impact := .medium, value := some (recentHighSpending : ℚ) }]
      else []
  -- weekend vs weekday spending
  let weekendRecs : List Recommendation :=
    if weekendSpendPct dl expenses > 40 then
      [{ id := .weekendSpending, rtype := .info, category := "Spending Habits",
         impact := .medium, value := some (weekendSpendPct dl expenses) }]
    else []
  let categorySpending := categorySpendingMap expenses
  -- budget reallocation for underutilized categories
  let underutilizedCategories := budgetCategories.filter (fun category =>
    let spent := categorySpending category.name
    let utilization := if category.allocation > 0 then spent / category.allocation * 100 else 0
    decide (utilization < 50) && decide (category.allocation > 100000))
  let reallocationRecs : List Recommendation :=
    if underutilizedCategories.length > 0 then
      let totalUnused := underutilizedCategories.foldl
        (fun sum category => sum + (category.allocation - categorySpending category.name)) 0
      [{ id := .budgetReallocation, rtype := .success, category := "Budget Optimization",
         impact := .high, value := some totalUnused }]
    else []
  -- per-category heuristics
  let perCategoryRecs := budgetCategories.flatMap (categoryRecs totalIncome categorySpending)
  -- savings rate trichotomy
  let savingsRecs : List Recommendation :=
    if sRate < 8 then
      [{ id := .lowSavingsRate, rtype := .danger, category := "Savings",
         impact := .high, value := some sRate }]
    else if sRate ≥ 15 then
      [{ id := .goodSavingsRate, rtype := .success, category := "Savings",
         impact := .low, value := some sRate }]
    else
      [{ id := .moderateSavingsRate, rtype := .info, category := "Savings",
         impact := .medium, value := some sRate }]
  -- emergency fund months (liquid assets are a hard-coded constant)
  let liquidAssets : ℚ := 5000000
  let monthlyExpenses := totalExpenses
  let emergencyFundMonths := if monthlyExpenses > 0 then liquidAssets / monthlyExpenses else 0
  let emergencyRecs : List Recommendation :=
    if emergencyFundMonths < 3 then
      [{ id := .emergencyFundLow, rtype := .warning, category := "Emergency Fund",
         impact := .high, value := some emergencyFundMonths }]
    else if emergencyFundMonths ≥ 6 then
      [{ id := .emergencyFundExcellent, rtype := .success, category := "Emergency Fund",
         impact := .low, value := some emergencyFundMonths }]
    else []
  -- debt-to-income
  let debtPayments := (expenses.filter (fun expense =>
      includesSub (jsToLower expense.category) "loan"
        || includesSub (jsToLower expense.category) "debt"
        || includesSub (jsToLower expense.category) "credit")).foldl
      (fun sum expense => sum + expense.amount) 0
  let debtToIncome := if totalIncome > 0 then debtPayments / totalIncome * 100 else 0
  let debtRecs : List Recommendation :=
    if debtToIncome > 36 then
      [{ id := .highDebt, rtype := .danger, category := "Debt Management",
         impact := .high, value := some debtToIncome }]
    else []
  -- investment readiness
  let investmentRecs : List Recommendation :=
    if sRate ≥ 15 ∧ emergencyFundMonths ≥ 3 then
      [{ id := .investmentOpportunity, rtype := .info, category := "Investment",
         impact := .medium, value := none }]
    else []
  -- income growth between the last two income entries
  let recentIncomeGrowth :=
    if monthlyIncome.length ≥ 2 then
      let lastAmount :=
        ((monthlyIncome.get? (monthlyIncome.length - 1)).map (·.amount)).getD 0
      let prevAmount :=
        ((monthlyIncome.get? (monthlyIncome.length - 2)).map (·.amount)).getD 0
      (lastAmount - prevAmount) / (if prevAmount = 0 then 1 else prevAmount) * 100
    else 0
  let incomeGrowthRecs : List Recommendation :=
    if recentIncomeGrowth > 10 then
      [{ id := .incomeGrowth, rtype := .success, category := "Income",
         impact := .low, value := some recentIncomeGrowth }]
    else []
  -- retirement planning against hard-coded profile constants
  let monthlyRetirementNeeds := totalExpenses * (8 / 10)
  let requiredRetirementFund := monthlyRetirementNeeds * 12 * 20
  let currentRetirementSavings : ℚ := 100000000
  let yearsToRetirement : ℚ := 55 - 30
  let monthlyRetirementSaving :=
    (requiredRetirementFund - currentRetirementSavings) / (yearsToRetirement * 12)
  let retirementRecs : List Recommendation :=
    if monthlyRetirementSaving > totalIncome * (15 / 100) then
      [{ id := .retirementPlanning, rtype := .warning, category := "Retirement Planning",
         impact := .high, value := some monthlyRetirementSaving }]
    else []
  -- subscription audit
  let subscriptionExpenses := expenses.filter (fun expense =>
    includesSub (jsToLower expense.description) "subscription"
      || includesSub (jsToLower expense.description) "langganan"
      || includesSub (jsToLower expense.description) "netflix"
      || includesSub (jsToLower expense.description) "spotify")
  let subscriptionRecs : List Recommendation :=
    if subscriptionExpenses.length > 5 then
      let totalSubscriptions := subscriptionExpenses.foldl
        (fun sum expense => sum + expense.amount) 0
      [{ id := .subscriptionAudit, rtype := .info, category := "Subscriptions",
         impact := .medium, value := some totalSubscriptions }]
    else []
  let recs :=
    spikeRecs ++ weekendRecs ++ reallocationRecs ++ perCategoryRecs ++ savingsRecs
      ++ emergencyRecs ++ debtRecs ++ investmentRecs ++ incomeGrowthRecs
      ++ retirementRecs ++ subscriptionRecs
  -- stable sort, descending on impactOrder
  recs.mergeSort (fun a b => impactOrder b.impact ≤ impactOrder a.impact)

/-! ## Helper lemmas -/

/-- A `reduce((sum, x) => sum + f(x), init)` fold is `init` plus the sum of
the mapped values. -/
lemma foldl_add_eq_sum {α : Type} (f : α → ℚ) :
    ∀ (l : List α) (init : ℚ),
      l.foldl (fun sum x => sum + f x) init = init + (l.map f).sum := by
  intro l
  induction l with
  | nil => intro init; simp
  | cons a t ih => intro init; simp [ih, add_assoc]

lemma totalSpending_eq_sum (expenses : List Expense) :
    totalSpending expenses = (expenses.map (·.amount)).sum := by
  simpa using foldl_add_eq_sum (·.amount) expenses 0

lemma totalIncomeOf_eq_sum (monthlyIncome : List MonthlyIncome) :
    totalIncomeOf monthlyIncome = (monthlyIncome.map (·.amount)).sum := by
  simpa using foldl_add_eq_sum (·.amount) monthlyIncome 0

/-! ## Claim theorems -/

/-- C3: the savings-rate computation returns exactly 20 for income
10,000,000 and expenses 8,000,000, and returns 0 for zero income whatever
the expenses are. -/
theorem savingsRate_values :
    savingsRate 10000000 8000000 = 20
      ∧ ∀ totalExpenses : ℚ, savingsRate 0 totalExpenses = 0 := by
  constructor
  · norm_num [savingsRate]
  · intro totalExpenses; simp [savingsRate]

/-- C5: `getRange` returns the fetched rows when the call succeeds on a
configured service, and returns the empty list (rather than propagating
an error) when the service is unconfigured, the call throws, or the
response has no values. -/
theorem getRange_rows_or_empty :
    (∀ (st : ServiceState) (rows : List Row),
        getRange st (.ok (some rows)) = if st.isConfigured then rows else [])
    ∧ (∀ st : ServiceState, getRange st .err = [])
    ∧ (∀ st : ServiceState, getRange st (.ok none) = []) := by
  refine ⟨fun st rows => ?_, fun st => ?_, fun st => ?_⟩ <;>
    obtain ⟨b⟩ := st <;> cases b <;> simp [getRange]

/-- C6: `updateRange` and `appendData` always return normally — whether
the service is unconfigured or the API call throws — so their result does
not reveal whether the write persisted, even though the persisted flag
differs. -/
theorem writes_never_propagate_failure :
    (∀ (st : ServiceState) (w : WriteOutcome),
        (updateRange st w).result = .ok () ∧ (appendData st w).result = .ok ())
    ∧ (∀ st : ServiceState,
        (updateRange st .ok).result = (updateRange st .err).result
          ∧ (appendData st .ok).result = (appendData st .err).result)
    ∧ ((updateRange ⟨true⟩ .ok).persisted = true
        ∧ (updateRange ⟨true⟩ .err).persisted = false
        ∧ (appendData ⟨true⟩ .ok).persisted = true
        ∧ (appendData ⟨true⟩ .err).persisted = false) := by
  refine ⟨fun st w => ?_, fun st => ?_, by simp [updateRange, appendData]⟩ <;>
    obtain ⟨b⟩ := st <;> cases b <;> first
      | (cases w <;> simp [updateRange, appendData])
      | simp [updateRange, appendData]

/-- C8: `authorize` accepts every pair of non-empty email and password,
returning the demo user record, and returns `null` exactly when the email
or the password is empty or absent. -/
theorem authorize_accepts_nonempty (email password : String)
    (he : email ≠ "") (hp : password ≠ "") :
    authorize (some { email := some email, password := some password }) =
        some { id := "demo-user", email := email, name := "Demo User", image := none }
    ∧ ∀ credentials : Option Credentials,
        (authorize credentials = none ↔
          ((credentials.bind (·.email)).getD "" = ""
            ∨ (credentials.bind (·.password)).getD "" = "")) := by
  constructor
  · simp [authorize, truthyStr, he, hp]
  · intro credentials
    match credentials with
    | none => simp [authorize]
    | some c =>
        obtain ⟨e, p⟩ := c
        match e, p with
        | none, _ => simp [authorize, truthyStr]
        | some e, none => simp [authorize, truthyStr]
        | some e, some p =>
            by_cases he1 : e = "" <;> by_cases hp1 : p = "" <;>
              simp [authorize, truthyStr, he1, hp1]

/-- Witness for C8 at a concrete credential pair. -/
theorem authorize_accepts_nonempty_witness :
    ("user@example.com" ≠ "" ∧ "hunter2" ≠ "")
    ∧ authorize (some { email := some "user@example.com", password := some "hunter2" }) =
        some { id := "demo-user", email := "user@example.com",
               name := "Demo User", image := none } :=
  ⟨⟨by decide, by decide⟩,
    (authorize_accepts_nonempty "user@example.com" "hunter2"
      (by decide) (by decide)).1⟩

/-- C2 counterexample: with an empty row set, requesting January 2024
while the clock reads June 2025, `getBudgetCategories` returns the
seven-element demo array instead of the empty list the claim requires for
a non-current month. -/
theorem getBudgetCategories_stale_month_counterexample :
    ((1 : Int) ≠ 6 ∨ (2024 : Int) ≠ 2025)
    ∧ getRange ⟨false⟩ .err = []
    ∧ getBudgetCategories ⟨false⟩ .err ⟨6, 2025⟩ 1 2024 = demoBudget 1 2024
    ∧ getBudgetCategories ⟨false⟩ .err ⟨6, 2025⟩ 1 2024 ≠ [] := by
  refine ⟨by decide, rfl, rfl, by decide⟩

/-- C2 amended: on an empty row set, `getMonthlyIncome` and `getExpenses`
return their demo arrays exactly for the current calendar month and year
and the empty list otherwise, while `getBudgetCategories` returns its
demo array for every requested month and year. -/
theorem empty_rows_demo_fallback (st : ServiceState) (fetch : FetchResult)
    (now : CalDate) (month year : Int) (h : getRange st fetch = []) :
    getMonthlyIncome st fetch now month year =
      (if month = now.month ∧ year = now.year then demoIncome month year else [])
    ∧ getExpenses st fetch now month year =
      (if month = now.month ∧ year = now.year then demoExpenses month year else [])
    ∧ getBudgetCategories st fetch now month year = demoBudget month year := by
  refine ⟨?_, ?_, ?_⟩
  · simp only [getMonthlyIncome, h, List.isEmpty_nil, if_true]
    by_cases hm : month = now.month ∧ year = now.year
    · simp [hm.1, hm.2]
    · rw [if_neg hm, if_pos (by tauto)]
  · simp only [getExpenses, h, List.isEmpty_nil, if_true]
    by_cases hm : month = now.month ∧ year = now.year
    · simp [hm.1, hm.2]
    · rw [if_neg hm, if_pos (by tauto)]
  · simp only [getBudgetCategories, h, List.isEmpty_nil, if_true]

/-- Witness for C2 amended: concrete empty fetch, current month matches
the request. -/
theorem empty_rows_demo_fallback_witness :
    getRange ⟨false⟩ .err = []
    ∧ (getMonthlyIncome ⟨false⟩ .err ⟨6, 2025⟩ 6 2025 =
        (if (6 : Int) = 6 ∧ (2025 : Int) = 2025 then demoIncome 6 2025 else [])
      ∧ getExpenses ⟨false⟩ .err ⟨6, 2025⟩ 6 2025 =
        (if (6 : Int) = 6 ∧ (2025 : Int) = 2025 then demoExpenses 6 2025 else [])
      ∧ getBudgetCategories ⟨false⟩ .err ⟨6, 2025⟩ 6 2025 = demoBudget 6 2025) :=
  ⟨rfl, empty_rows_demo_fallback ⟨false⟩ .err ⟨6, 2025⟩ 6 2025 rfl⟩

/-- C9: with a non-empty row set, every record returned by
`getMonthlyIncome` and by `getExpenses` carries exactly the requested
month and year. -/
theorem records_match_requested_period (st : ServiceState) (fetch : FetchResult)
    (now : CalDate) (month year : Int) (hne : getRange st fetch ≠ []) :
    (∀ rec ∈ getMonthlyIncome st fetch now month year,
        rec.month = month ∧ rec.year = year)
    ∧ (∀ rec ∈ getExpenses st fetch now month year,
        rec.month = month ∧ rec.year = year) := by
  have hempty : (getRange st fetch).isEmpty = false := by
    simpa [List.isEmpty_iff] using hne
  constructor <;>
    · intro rec hrec
      simp only [getMonthlyIncome, getExpenses, hempty, Bool.false_eq_true,
        if_false, List.mem_filter, List.mem_map] at hrec
      obtain ⟨-, hcond⟩ := hrec
      simp only [Bool.and_eq_true, beq_iff_eq] at hcond
      exact hcond

/-- A sample fetched sheet: a header row and one income row for May 2024. -/
def sampleIncomeFetch : FetchResult :=
  .ok (some
    [ [⟨"Source", none, none⟩],
      [⟨"Salary", none, none⟩, ⟨"100", some 100, some 100⟩,
       ⟨"5", some 5, some 5⟩, ⟨"2024", some 2024, some 2024⟩,
       ⟨"BCA Checking", none, none⟩] ])

/-- The income record produced from `sampleIncomeFetch`. -/
def sampleIncomeRec : MonthlyIncome :=
  { id := "income-0", source := "Salary", amount := 100,
    month := 5, year := 2024, account := "BCA Checking" }

/-- Witness for C9 on the sample fetch. -/
theorem records_match_requested_period_witness :
    getRange ⟨true⟩ sampleIncomeFetch ≠ []
    ∧ sampleIncomeRec ∈ getMonthlyIncome ⟨true⟩ sampleIncomeFetch ⟨6, 2025⟩ 5 2024
    ∧ (sampleIncomeRec.month = 5 ∧ sampleIncomeRec.year = 2024) :=
  ⟨by decide, by decide,
    (records_match_requested_period ⟨true⟩ sampleIncomeFetch ⟨6, 2025⟩ 5 2024
      (by decide)).1 sampleIncomeRec (by decide)⟩

lemma ite_nil_cons_eq_nil {c : Prop} [Decidable c] {m : String} :
    ((if c then ([] : List String) else [m]) = []) ↔ c := by
  split <;> simp_all

lemma ite_cons_nil_eq_nil {c : Prop} [Decidable c] {m : String} :
    ((if c then [m] else ([] : List String)) = []) ↔ ¬c := by
  split <;> simp_all

/-- C10: `validateExpense` reports `isValid` exactly when no error was
collected, produces `sanitizedData` exactly when valid, and the sanitized
record has a strictly positive amount (the absolute value of the input
amount), a month between 1 and 12, and trimmed description, category and
account fields. -/
theorem validateExpense_contract (e : PartialExpense) :
    ((validateExpense e).isValid = true ↔ (validateExpense e).errors = [])
    ∧ ((validateExpense e).sanitizedData.isSome = true ↔
        (validateExpense e).isValid = true)
    ∧ (∀ s, (validateExpense e).sanitizedData = some s →
        0 < s.amount
        ∧ (∃ a, e.amount = some a ∧ s.amount = |a|)
        ∧ (∃ m, e.month = some m ∧ 1 ≤ m ∧ m ≤ 12 ∧ s.month = some m)
        ∧ s.description = e.description.map jsTrim
        ∧ s.category = e.category.map jsTrim
        ∧ s.account = e.account.map jsTrim) := by
  refine ⟨?_, ?_, ?_⟩
  · simp only [validateExpense, beq_iff_eq, List.length_eq_zero]
  · simp only [validateExpense, beq_iff_eq]
    split <;> simp_all
  · intro s hs
    simp only [validateExpense] at hs
    by_cases h1 : (expenseErrors e).length = 0
    · rw [if_pos h1] at hs
      obtain rfl : sanitizeExpense e = s := Option.some.inj hs
      have h2 : expenseErrors e = [] := List.length_eq_zero.mp h1
      simp only [expenseErrors, List.append_eq_nil, ite_nil_cons_eq_nil,
        ite_cons_nil_eq_nil, Bool.not_eq_true, Bool.or_eq_false_iff,
        Bool.not_eq_false', decide_eq_false_iff_not] at h2
      obtain ⟨⟨⟨⟨⟨⟨⟨hid, hdesc⟩, ⟨ha1, ha2⟩⟩, hcat⟩, hacc⟩, hdate⟩, ⟨⟨hm1, hm2⟩, hm3⟩⟩, hyr⟩ := h2
      cases hae : e.amount with
      | none => rw [hae] at ha1; simp [truthyQ] at ha1
      | some a =>
        cases hme : e.month with
        | none => rw [hme] at hm1; simp [truthyInt] at hm1
        | some m =>
          rw [hae] at ha2
          rw [hme] at hm2 hm3
          simp only [Option.getD_some] at ha2 hm2 hm3
          have hapos : 0 < a := lt_of_not_ge ha2
          refine ⟨?_, ⟨a, rfl, ?_⟩, ⟨m, rfl, ?_, ?_, ?_⟩, rfl, rfl, rfl⟩
          · show 0 < (sanitizeExpense e).amount
            simp [sanitizeExpense, hae, abs_of_pos hapos, hapos]
          · simp [sanitizeExpense, hae]
          · omega
          · omega
          · simp [sanitizeExpense, hme]
    · rw [if_neg h1] at hs
      exact absurd hs (by simp)

/-- A syntactically valid partial expense. -/
def sampleValidExpense : PartialExpense :=
  { id := some "exp-1", date := some "2024-05-05", description := some " Lunch ",
    amount := some 250, category := some " Food ", account := some " BCA ",
    month := some 5, year := some 2024 }

/-- The sanitized record `validateExpense` produces for
`sampleValidExpense`. -/
def sampleSanitized : SanitizedExpense :=
  { id := some "exp-1", date := some "2024-05-05", description := some "Lunch",
    amount := 250, category := some "Food", account := some "BCA",
    month := some 5, year := some 2024 }

/-- Witness for C10 on the sample expense. -/
theorem validateExpense_contract_witness :
    (validateExpense sampleValidExpense).sanitizedData = some sampleSanitized
    ∧ (0 < sampleSanitized.amount
       ∧ (∃ a, sampleValidExpense.amount = some a ∧ sampleSanitized.amount = |a|)
       ∧ (∃ m, sampleValidExpense.month = some m ∧ 1 ≤ m ∧ m ≤ 12
            ∧ sampleSanitized.month = some m)
       ∧ sampleSanitized.description = sampleValidExpense.description.map jsTrim
       ∧ sampleSanitized.category = sampleValidExpense.category.map jsTrim
       ∧ sampleSanitized.account = sampleValidExpense.account.map jsTrim) :=
  ⟨by decide,
    (validateExpense_contract sampleValidExpense).2.2 sampleSanitized (by decide)⟩

/-- The record lookup `categorySpending[name] || 0` equals the sum of the
amounts of the expenses with that category. -/
lemma categorySpendingMap_eq (expenses : List Expense) (n : String) :
    categorySpendingMap expenses n =
      ((expenses.filter (fun e => e.category == n)).map (·.amount)).sum := by
  suffices h : ∀ (es : List Expense) (acc : String → ℚ) (k : String),
      es.foldl (fun acc expense k =>
          if k = expense.category then acc k + expense.amount else acc k) acc k
        = acc k + ((es.filter (fun e => e.category == k)).map (·.amount)).sum by
    simpa [categorySpendingMap] using h expenses (fun _ => 0) n
  intro es
  induction es with
  | nil => intro acc k; simp
  | cons e t ih =>
    intro acc k
    simp only [List.foldl_cons, ih]
    by_cases hk : k = e.category
    · have : (e.category == k) = true := by simp [hk]
      simp [List.filter_cons, this, hk, add_assoc]
    · have : (e.category == k) = false := by simp [beq_eq_false_iff_ne]; exact fun h => hk h.symm
      simp [List.filter_cons, this, hk]

lemma exists_mem_ite_singleton {α : Type} (c : Prop) [Decidable c] (x : α)
    (P : α → Prop) :
    (∃ r ∈ (if c then [x] else ([] : List α)), P r) ↔ c ∧ P x := by
  split <;> simp_all

/-- Two expenses in the Groceries category summing to 1,200,000. -/
def overspendSampleExpenses : List Expense :=
  [ { id := "e1", date := "2024-05-04", description := "Weekly groceries",
      amount := 700000, category := "Groceries", account := "BCA Checking",
      month := 5, year := 2024 },
    { id := "e2", date := "2024-05-18", description := "Monthly groceries",
      amount := 500000, category := "Groceries", account := "BCA Checking",
      month := 5, year := 2024 } ]

/-- A Groceries budget with an allocation of 1,000,000. -/
def overspendSampleCategory : BudgetCategory :=
  { id := "b1", name := "Groceries", btype := .needs, color := "#10B981",
    allocation := 1000000, spent := 0, month := 5, year := 2024,
    account := "BCA Checking" }

/-- C4: the overspend warning of the per-category heuristics is emitted
exactly when `spent - allocation > allocation * 0.15`, and for an
allocation of 1,000,000 with matching expenses summing to 1,200,000 the
reported variance is exactly 200,000 and the warning fires. -/
lemma overspent_rec_iff (totalIncome : ℚ) (categorySpending : String → ℚ)
    (category : BudgetCategory) :
    (∃ r ∈ categoryRecs totalIncome categorySpending category,
        r.id = .overspent category.id ∧ r.rtype = .warning
          ∧ r.value = some (categorySpending category.name - category.allocation))
      ↔ categorySpending category.name - category.allocation
          > category.allocation * (15 / 100) := by
  constructor
  · rintro ⟨r, hr, hid, hty, hval⟩
    simp only [categoryRecs, List.mem_append] at hr
    rcases hr with (hr | hr) | hr
    · by_cases hc : categorySpending category.name - category.allocation
          > category.allocation * (15 / 100)
      · exact hc
      · rw [if_neg hc] at hr; simp at hr
    · split_ifs at hr <;> simp_all
    · split_ifs at hr <;> simp_all
  · intro hc
    refine ⟨{ id := .overspent category.id, rtype := .warning,
              category := category.name, impact := .high,
              value := some (categorySpending category.name - category.allocation) },
            ?_, rfl, rfl, rfl⟩
    simp only [categoryRecs, List.mem_append]
    left; left
    rw [if_pos hc]
    exact List.mem_singleton_self _

theorem overspend_warning_rule :
    (∀ (totalIncome : ℚ) (categorySpending : String → ℚ)
        (category : BudgetCategory),
      (∃ r ∈ categoryRecs totalIncome categorySpending category,
          r.id = .overspent category.id ∧ r.rtype = .warning
            ∧ r.value = some (categorySpending category.name - category.allocation))
        ↔ categorySpending category.name - category.allocation
            > category.allocation * (15 / 100))
    ∧ categorySpendingMap overspendSampleExpenses "Groceries" - 1000000 = 200000
    ∧ (∃ r ∈ categoryRecs 0 (categorySpendingMap overspendSampleExpenses)
          overspendSampleCategory,
        r.id = .overspent "b1" ∧ r.rtype = .warning ∧ r.value = some 200000) := by
  have hspend : categorySpendingMap overspendSampleExpenses "Groceries" = 1200000 := by
    rw [categorySpendingMap_eq]
    norm_num [overspendSampleExpenses]
  have hname : overspendSampleCategory.name = "Groceries" := rfl
  have halloc : overspendSampleCategory.allocation = 1000000 := rfl
  refine ⟨overspent_rec_iff, by rw [hspend]; norm_num, ?_⟩
  obtain ⟨r, hr, hid, hty, hval⟩ :=
    (overspent_rec_iff 0 (categorySpendingMap overspendSampleExpenses)
      overspendSampleCategory).mpr (by rw [hname, halloc, hspend]; norm_num)
  refine ⟨r, hr, hid, hty, ?_⟩
  rw [hval, hname, halloc, hspend]
  norm_num

/-- Pointwise indicator sums over a duplicate-free name list collapse to a
single membership test. -/
lemma indicator_sum_of_nodup (names : List String) (c : String) (a : ℚ)
    (h : names.Nodup) :
    (names.map (fun n => if c = n then a else 0)).sum = if c ∈ names then a else 0 := by
  induction names with
  | nil => simp
  | cons m rest ih =>
    rw [List.nodup_cons] at h
    obtain ⟨hm, hrest⟩ := h
    by_cases hc : c = m
    · subst hc
      have hzero : (rest.map (fun n => if c = n then a else 0)).sum = 0 := by
        apply List.sum_eq_zero
        intro x hx
        rw [List.mem_map] at hx
        obtain ⟨n, hn, rfl⟩ := hx
        rw [if_neg]
        intro hcn
        exact hm (hcn ▸ hn)
      simp [hzero]
    · simp [hc, ih hrest]

/-- Summing per-name category totals over duplicate-free names counts each
expense whose category occurs among the names exactly once. -/
lemma sum_per_name_totals (names : List String) (hnodup : names.Nodup)
    (es : List Expense) :
    (names.map (fun n =>
        ((es.filter (fun e => e.category == n)).map (·.amount)).sum)).sum
      = ((es.filter (fun e => decide (e.category ∈ names))).map (·.amount)).sum := by
  induction es with
  | nil => simp
  | cons e t ih =>
    have hsplit : ∀ n : String,
        (((e :: t).filter (fun x => x.category == n)).map (·.amount)).sum
          = (if e.category = n then e.amount else 0)
            + ((t.filter (fun x => x.category == n)).map (·.amount)).sum := by
      intro n
      by_cases hc : e.category = n
      · simp [List.filter_cons, hc]
      · simp [List.filter_cons, hc]
    rw [List.map_congr_left (fun n _ => hsplit n), List.sum_map_add,
      indicator_sum_of_nodup names e.category e.amount hnodup, ih]
    by_cases hmem : e.category ∈ names
    · simp [List.filter_cons, hmem]
    · simp [List.filter_cons, hmem]

/-- Dropping the zero-valued chart items does not change the value total
when every value is non-negative. -/
lemma filter_pos_value_sum (l : List CategoryChartItem)
    (h : ∀ i ∈ l, 0 ≤ i.value) :
    ((l.filter (fun i => decide (i.value > 0))).map (·.value)).sum
      = (l.map (·.value)).sum := by
  induction l with
  | nil => simp
  | cons i t ih =>
    have hi := h i (List.mem_cons_self i t)
    have ht : ∀ j ∈ t, 0 ≤ j.value := fun j hj => h j (List.mem_cons_of_mem _ hj)
    by_cases hp : i.value > 0
    · simp [List.filter_cons, hp, ih ht]
    · have hz : i.value = 0 := le_antisymm (not_lt.mp hp) hi
      simp [List.filter_cons, hp, ih ht, hz]

/-- An expense whose category matches no budget category. -/
def orphanExpense : Expense :=
  { id := "e1", date := "2024-05-05", description := "Lunch", amount := 100,
    category := "Food", account := "BCA", month := 5, year := 2024 }

/-- C1 counterexample: with no budget category matching the expense, the
chart total is 0 while the expenses sum to 100 — the expense is silently
dropped from the aggregation. -/
theorem expensesByCategory_drops_unmatched_counterexample :
    grandTotal (expensesByCategory [] [orphanExpense]) = 0
    ∧ totalSpending [orphanExpense] = 100
    ∧ grandTotal (expensesByCategory [] [orphanExpense])
        ≠ totalSpending [orphanExpense] := by
  have h1 : grandTotal (expensesByCategory [] [orphanExpense]) = 0 := by
    simp [expensesByCategory, grandTotal]
  have h2 : totalSpending [orphanExpense] = 100 := by
    simp [totalSpending, orphanExpense]
  exact ⟨h1, h2, by rw [h1, h2]; norm_num⟩

/-- C1 amended: when the budget category names are pairwise distinct,
every expense has a strictly positive amount and every expense category
occurs among the budget category names, the grand total of
`expensesByCategory` equals the arithmetic sum of the expense amounts. -/
theorem expensesByCategory_grand_total (budgetCategories : List BudgetCategory)
    (expenses : List Expense)
    (hnodup : (budgetCategories.map (·.name)).Nodup)
    (hcover : ∀ e ∈ expenses, e.category ∈ budgetCategories.map (·.name))
    (hpos : ∀ e ∈ expenses, 0 < e.amount) :
    grandTotal (expensesByCategory budgetCategories expenses)
      = totalSpending expenses := by
  have hvalue : ∀ c : BudgetCategory,
      (expenses.filter (fun expense => expense.category == c.name)).foldl
          (fun sum expense => sum + expense.amount) 0
        = ((expenses.filter (fun expense => expense.category == c.name)).map
            (·.amount)).sum := by
    intro c
    simpa using foldl_add_eq_sum (·.amount)
      (expenses.filter (fun expense => expense.category == c.name)) 0
  have hnonneg : ∀ i ∈ (budgetCategories.map (fun category =>
      let categoryExpenses :=
        (expenses.filter (fun expense => expense.category == category.name)).foldl
          (fun sum expense => sum + expense.amount) 0
      { name := category.name, value := categoryExpenses,
        color := category.color,
        percentage :=
          if totalSpending expenses > 0 then
            categoryExpenses / totalSpending expenses * 100
          else 0 : CategoryChartItem })), 0 ≤ i.value := by
    intro i hi
    rw [List.mem_map] at hi
    obtain ⟨c, hc, rfl⟩ := hi
    show (0 : ℚ) ≤ _
    simp only [hvalue c]
    apply List.sum_nonneg
    intro x hx
    rw [List.mem_map] at hx
    obtain ⟨e, he, rfl⟩ := hx
    exact le_of_lt (hpos e (List.mem_of_mem_filter he))
  simp only [expensesByCategory, grandTotal]
  rw [filter_pos_value_sum _ hnonneg, List.map_map]
  have hmapped : (budgetCategories.map (fun c =>
      ((expenses.filter (fun e => e.category == c.name)).map (·.amount)).sum)).sum
      = ((budgetCategories.map (·.name)).map (fun n =>
          ((expenses.filter (fun e => e.category == n)).map (·.amount)).sum)).sum := by
    rw [List.map_map]
    rfl
  have hstep : (budgetCategories.map ((fun i => i.value) ∘ (fun category =>
      let categoryExpenses :=
        (expenses.filter (fun expense => expense.category == category.name)).foldl
          (fun sum expense => sum + expense.amount) 0
      { name := category.name, value := categoryExpenses,
        color := category.color,
        percentage :=
          if totalSpending expenses > 0 then
            categoryExpenses / totalSpending expenses * 100
          else 0 : CategoryChartItem }))).sum
      = (budgetCategories.map (fun c =>
          ((expenses.filter (fun e => e.category == c.name)).map (·.amount)).sum)).sum := by
    apply congrArg
    apply List.map_congr_left
    intro c _
    exact hvalue c
  rw [hstep, hmapped, sum_per_name_totals _ hnodup,
    List.filter_eq_self.mpr (fun e he => decide_eq_true (hcover e he)),
    totalSpending_eq_sum]

/-- A matching budget category for `orphanExpense`. -/
def matchingCategory : BudgetCategory :=
  { id := "b1", name := "Food", btype := .needs, color := "#10B981",
    allocation := 1000000, spent := 0, month := 5, year := 2024,
    account := "BCA" }

/-- Witness for C1 amended on a covering, duplicate-free setup. -/
theorem expensesByCategory_grand_total_witness :
    (([matchingCategory].map (·.name)).Nodup
      ∧ (∀ e ∈ [orphanExpense], e.category ∈ [matchingCategory].map (·.name))
      ∧ (∀ e ∈ [orphanExpense], 0 < e.amount))
    ∧ grandTotal (expensesByCategory [matchingCategory] [orphanExpense])
        = totalSpending [orphanExpense] :=
  ⟨⟨by decide, by decide, by decide⟩,
    expensesByCategory_grand_total [matchingCategory] [orphanExpense]
      (by decide) (by decide) (by decide)⟩

lemma mem_ite_singleton {α : Type} {r x : α} {c : Prop} [Decidable c] :
    (r ∈ (if c then [x] else ([] : List α))) ↔ r = x ∧ c := by
  split <;> simp_all

lemma mem_ite_two {α : Type} {r x y : α} {c₁ c₂ : Prop}
    [Decidable c₁] [Decidable c₂] :
    (r ∈ (if c₁ then [x] else if c₂ then [y] else ([] : List α)))
      ↔ (r = x ∧ c₁) ∨ (r = y ∧ ¬c₁ ∧ c₂) := by
  by_cases h₁ : c₁ <;> by_cases h₂ : c₂ <;> simp [h₁, h₂]

lemma mem_ite_tri {α : Type} {r x y z : α} {c₁ c₂ : Prop}
    [Decidable c₁] [Decidable c₂] :
    (r ∈ (if c₁ then [x] else if c₂ then [y] else [z]))
      ↔ (r = x ∧ c₁) ∨ (r = y ∧ ¬c₁ ∧ c₂) ∨ (r = z ∧ ¬c₁ ∧ ¬c₂) := by
  by_cases h₁ : c₁ <;> by_cases h₂ : c₂ <;> simp [h₁, h₂]

lemma mem_ite_skip {α : Type} {r x : α} {c d : Prop}
    [Decidable c] [Decidable d] :
    (r ∈ (if c then ([] : List α) else if d then [x] else []))
      ↔ r = x ∧ ¬c ∧ d := by
  by_cases h₁ : c <;> by_cases h₂ : d <;> simp [h₁, h₂]

/-- Every per-category recommendation has a category-tagged id. -/
lemma categoryRecs_mem_id {totalIncome : ℚ} {categorySpending : String → ℚ}
    {category : BudgetCategory} {r : Recommendation}
    (h : r ∈ categoryRecs totalIncome categorySpending category) :
    (∃ i, r.id = RecId.overspent i) ∨ (∃ i, r.id = RecId.foodIncrease i)
      ∨ (∃ i, r.id = RecId.entertainmentHigh i) := by
  simp only [categoryRecs, List.mem_append] at h
  rcases h with (h | h) | h <;> split_ifs at h <;> simp_all

/-- The low-savings recommendation (with its `danger` class) is present
exactly when the savings rate is below 8%. -/
lemma mem_recommendations_lowSavings (dl : DateLib) (expenses : List Expense)
    (monthlyIncome : List MonthlyIncome)
    (budgetCategories : List BudgetCategory) :
    (∃ r ∈ recommendations dl expenses monthlyIncome budgetCategories,
        r.id = RecId.lowSavingsRate ∧ r.rtype = RecType.danger)
      ↔ savingsRate (totalIncomeOf monthlyIncome) (totalSpending expenses) < 8 := by
  simp [recommendations, List.mem_mergeSort, List.mem_append, mem_ite_singleton,
    mem_ite_two, mem_ite_tri, mem_ite_skip, or_and_right, exists_or, and_assoc]
  intro x c hc hx hid
  rcases categoryRecs_mem_id hx with ⟨i, h⟩ | ⟨i, h⟩ | ⟨i, h⟩ <;>
    rw [hid] at h <;> exact RecId.noConfusion h

/-- The weekend-spending recommendation (class `info`) is present exactly
when the weekend share of spending exceeds 40%. -/
lemma mem_recommendations_weekend (dl : DateLib) (expenses : List Expense)
    (monthlyIncome : List MonthlyIncome)
    (budgetCategories : List BudgetCategory) :
    (∃ r ∈ recommendations dl expenses monthlyIncome budgetCategories,
        r.id = RecId.weekendSpending ∧ r.rtype = RecType.info)
      ↔ weekendSpendPct dl expenses > 40 := by
  simp [recommendations, List.mem_mergeSort, List.mem_append, mem_ite_singleton,
    mem_ite_two, mem_ite_tri, mem_ite_skip, or_and_right, exists_or, and_assoc]
  intro x c hc hx hid
  rcases categoryRecs_mem_id hx with ⟨i, h⟩ | ⟨i, h⟩ | ⟨i, h⟩ <;>
    rw [hid] at h <;> exact RecId.noConfusion h

/-- No run of the heuristics ever emits a warning-class low-savings
recommendation: the low-savings branch is hard-coded to `danger`. -/
lemma recommendations_lowSavings_never_warning (dl : DateLib)
    (expenses : List Expense) (monthlyIncome : List MonthlyIncome)
    (budgetCategories : List BudgetCategory) :
    ¬∃ r ∈ recommendations dl expenses monthlyIncome budgetCategories,
        r.id = RecId.lowSavingsRate ∧ r.rtype = RecType.warning := by
  simp [recommendations, List.mem_mergeSort, List.mem_append, mem_ite_singleton,
    mem_ite_two, mem_ite_tri, mem_ite_skip, or_and_right, exists_or, and_assoc]
  intro x c hc hx hid
  rcases categoryRecs_mem_id hx with ⟨i, h⟩ | ⟨i, h⟩ | ⟨i, h⟩ <;>
    rw [hid] at h <;> exact RecId.noConfusion h

/-- C7 (amended): for every input, a savings rate strictly below 8%
produces a danger-class low-savings recommendation and a weekend-spending
share strictly above 40% produces an info-class weekend recommendation;
each holds whatever the rest of the data is, so the two heuristics are
evaluated independently. -/
theorem savings_weekend_heuristics (dl : DateLib) (expenses : List Expense)
    (monthlyIncome : List MonthlyIncome)
    (budgetCategories : List BudgetCategory) :
    ((∃ r ∈ recommendations dl expenses monthlyIncome budgetCategories,
        r.id = RecId.lowSavingsRate ∧ r.rtype = RecType.danger)
      ↔ savingsRate (totalIncomeOf monthlyIncome) (totalSpending expenses) < 8)
    ∧ ((∃ r ∈ recommendations dl expenses monthlyIncome budgetCategories,
        r.id = RecId.weekendSpending ∧ r.rtype = RecType.info)
      ↔ weekendSpendPct dl expenses > 40) :=
  ⟨mem_recommendations_lowSavings dl expenses monthlyIncome budgetCategories,
   mem_recommendations_weekend dl expenses monthlyIncome budgetCategories⟩

/-- A trivial date library for concrete runs. -/
def flatDateLib : DateLib :=
  { toDateStr := fun s => s, getDay := fun _ => 1 }

/-- A single expense consuming all income. -/
def cExpense : Expense :=
  { id := "e1", date := "2024-05-06", description := "Groceries", amount := 100,
    category := "Food", account := "BCA", month := 5, year := 2024 }

/-- A single income entry. -/
def cIncome : MonthlyIncome :=
  { id := "i1", source := "Salary", amount := 100, month := 5, year := 2024,
    account := "BCA" }

/-- C7 counterexample: at a savings rate of 0% (< 8%) the heuristics emit
the low-savings recommendation with class `danger`, not the
warning class the claim states. -/
theorem lowSavings_warning_counterexample :
    savingsRate (totalIncomeOf [cIncome]) (totalSpending [cExpense]) < 8
    ∧ ¬(∃ r ∈ recommendations flatDateLib [cExpense] [cIncome] [],
        r.id = RecId.lowSavingsRate ∧ r.rtype = RecType.warning)
    ∧ (∃ r ∈ recommendations flatDateLib [cExpense] [cIncome] [],
        r.id = RecId.lowSavingsRate ∧ r.rtype = RecType.danger) := by
  have hrate : savingsRate (totalIncomeOf [cIncome]) (totalSpending [cExpense]) < 8 := by
    norm_num [savingsRate, totalIncomeOf, totalSpending, cIncome, cExpense]
  exact ⟨hrate,
    recommendations_lowSavings_never_warning flatDateLib [cExpense] [cIncome] [],
    (mem_recommendations_lowSavings flatDateLib [cExpense] [cIncome] []).mpr hrate⟩

end FinanceTracker
